import Mathlib

/-!
Shallow embedding of the routing and memory subsystem of the
MultiAgent_System_for_HighSchool_MathLearning repository.

The Python sources embedded here are:
  * `src/Memory/short_term.py`   (`Message`, `ShortTermMemory`)
  * `src/Memory/long_term.py`    (`LongTermMemory`, `LongTermMemoryManager`)
  * `src/Memory/qdrant_store.py` (`QdrantVectorStore.search_memories`)
  * `src/Agent/tools/semantic_router.py` (`SemanticRouter`)

Python floats are modelled as rationals (`ℚ`), Python lists as `List`,
Python dictionaries either as structures (when the code writes a fixed set
of keys) or as association lists (when the claims are about dictionary
behaviour itself).  External services (the sentence-transformer embedding
model, the Groq LLM, the Qdrant client) are modelled as explicit
parameters: an environment record carrying the similarity values the
embedding model would produce, and the documented behaviour of the Qdrant
`search` call (minimum-inclusive `score_threshold`, descending score order,
`limit`).
-/

namespace MAS

/-! ## Short-term memory (`src/Memory/short_term.py`) -/

/-- Dataclass `Message` from `short_term.py`: one conversation turn.
`timestamp` (a Python float from `time.time()`) is a rational;
`metadata` (an open dict) is an association list of strings. -/
structure Message where
  role : String
  content : String
  timestamp : ℚ
  metadata : List (String × String)
deriving DecidableEq, Repr

/-- State of `ShortTermMemory`: the configured `max_size` and the `deque`
contents in insertion (chronological) order, oldest first. -/
structure ShortTermMemory where
  maxSize : Nat
  messages : List Message
deriving DecidableEq, Repr

/-- Constructor `ShortTermMemory.__init__`: `self.max_size = max_size or 50`.
Python `or` falls through on falsy values, so both `None` and `0`
give the `Config.SHORT_TERM_MAX_SIZE` default of 50. -/
def ShortTermMemory.init (max_size : Option Nat) : ShortTermMemory :=
  { maxSize :=
      match max_size with
      | none => 50
      | some 0 => 50
      | some n => n
    messages := [] }

/-- Appending to a `collections.deque` with `maxlen`: the new element is
appended on the right and, if the length now exceeds `maxlen`, elements
are discarded from the left until the length is `maxlen` again. -/
def dequeAppend (maxlen : Nat) (msgs : List Message) (m : Message) :
    List Message :=
  let l := msgs ++ [m]
  if l.length ≤ maxlen then l else l.drop (l.length - maxlen)

/-- Method `ShortTermMemory.add_message`: builds the `Message` and appends it to
the bounded deque; returns the new state together with the created
message (the method returns the message). -/
def ShortTermMemory.add_message (mem : ShortTermMemory) (role content : String)
    (timestamp : ℚ) (metadata : List (String × String)) :
    ShortTermMemory × Message :=
  let m : Message := ⟨role, content, timestamp, metadata⟩
  ({ mem with messages := dequeAppend mem.maxSize mem.messages m }, m)

/-- Method `ShortTermMemory.clear`. -/
def ShortTermMemory.clear (mem : ShortTermMemory) : ShortTermMemory :=
  { mem with messages := [] }

/-- A sequence of `add_message` calls, one per listed message (each call
supplies that message's role, content, timestamp and metadata). -/
def addSeq (mem : ShortTermMemory) (calls : List Message) : ShortTermMemory :=
  calls.foldl
    (fun s c => (s.add_message c.role c.content c.timestamp c.metadata).1) mem

/-- Python slice `l[i:]` for an arbitrary (possibly negative) integer `i`. -/
def pySliceFrom (i : Int) (l : List Message) : List Message :=
  if i < 0 then l.drop (l.length - (-i).toNat) else l.drop i.toNat

/-- Method `ShortTermMemory.get_messages(limit=None, role_filter=None)`:
copies the deque, filters by role when `role_filter` is truthy
(a non-empty string), then applies `messages[-limit:]` when `limit` is
truthy (a non-zero integer). -/
def ShortTermMemory.get_messages (mem : ShortTermMemory)
    (limit : Option Int) (role_filter : Option String) : List Message :=
  let messages := mem.messages
  let messages :=
    match role_filter with
    | some rf => if rf ≠ "" then messages.filter (fun m => m.role = rf)
                 else messages
    | none => messages
  match limit with
  | some n => if n ≠ 0 then pySliceFrom (-n) messages else messages
  | none => messages

/-! ## Semantic router (`src/Agent/tools/semantic_router.py`) -/

/-- Whether `pat` occurs at the start of `l` (helper for the substring test). -/
def listHasPre : List Char → List Char → Bool
  | [], _ => true
  | _ :: _, [] => false
  | p :: ps, x :: xs => p = x && listHasPre ps xs

/-- Whether `pat` occurs as a contiguous run inside `l`. -/
def subOccurs (pat : List Char) : List Char → Bool
  | [] => pat.isEmpty
  | x :: xs => listHasPre pat (x :: xs) || subOccurs pat xs

/-- Python's `pat in s` substring test on strings. -/
def strContains (s pat : String) : Bool :=
  subOccurs pat.toList s.toList

/-- Python's `str.lower()`, modelled characterwise with `Char.toLower`.
(`Char.toLower` only lowers ASCII letters; every profile keyword in the
source is already lower-case and every concrete prompt used below is
already lower-case, so the ASCII restriction is immaterial here.) -/
def pyLower (s : String) : String :=
  String.mk (s.toList.map Char.toLower)

/-- Dataclass `AgentProfile` from `semantic_router.py`.  The `embedding`
field (an optional numpy vector) is abstracted away: whether embeddings
exist, and what cosine similarity they produce, lives in `EmbedEnv`. -/
structure AgentProfile where
  name : String
  description : String
  keywords : List String
  examples : List String
  capabilities : List String
deriving DecidableEq, Repr

/-- The `"math"` entry of `_initialize_agent_profiles`. -/
def mathProfile : AgentProfile :=
  { name := "Math Agent"
    description := "Chuyên giải toán, phương trình, tính toán, phân tích số liệu"
    keywords :=
        ["giải", "phương trình", "toán", "tính", "tính toán", "x^", "=", "công thức",
         "đại số", "hình học", "giải tích", "thống kê", "xác suất", "ma trận",
         "đạo hàm", "tích phân", "logarit", "sin", "cos", "tan", "căn bậc",
         "bất phương trình", "hệ phương trình", "đồ thị", "hàm số"]
    examples :=
        ["Giải phương trình x^2 - 5x + 6 = 0",
         "Tính đạo hàm của hàm f(x) = x^3 + 2x^2 - 5x + 1",
         "Tìm nghiệm của hệ phương trình tuyến tính",
         "Vẽ đồ thị hàm số y = sin(x)",
         "Tính xác suất của biến cố ngẫu nhiên"]
    capabilities :=
        ["Giải phương trình đại số", "Tính toán vi phân", "Phân tích thống kê",
         "Vẽ đồ thị hàm số", "Giải hệ phương trình", "Tính xác suất"] }

/-- The `"research"` entry of `_initialize_agent_profiles`. -/
def researchProfile : AgentProfile :=
  { name := "Research Agent"
    description := "Nghiên cứu, tìm kiếm thông tin, tin tức, phân tích dữ liệu"
    keywords :=
        ["nghiên cứu", "tìm hiểu", "thông tin", "tin tức", "news", "tìm kiếm",
         "phân tích", "báo cáo", "báo chí", "cập nhật", "mới nhất", "xu hướng",
         "thị trường", "kinh tế", "chính trị", "công nghệ", "khoa học", "y tế",
         "giáo dục", "môi trường", "năng lượng", "tài chính", "đầu tư"]
    examples :=
        ["Tin tức mới nhất về AI tuần này",
         "Phân tích xu hướng thị trường chứng khoán",
         "Tìm hiểu về công nghệ blockchain",
         "Báo cáo về tình hình kinh tế Việt Nam",
         "Nghiên cứu về biến đổi khí hậu"]
    capabilities :=
        ["Tìm kiếm thông tin realtime", "Phân tích xu hướng", "Tổng hợp báo cáo",
         "Cập nhật tin tức", "Nghiên cứu thị trường", "Phân tích dữ liệu"] }

/-- The `"ocr"` entry of `_initialize_agent_profiles`. -/
def ocrProfile : AgentProfile :=
  { name := "OCR Agent"
    description := "Xử lý ảnh, OCR, nhận dạng văn bản, scan tài liệu"
    keywords :=
        ["ocr", "ảnh", "hình", "image", "scan", "nhận dạng", "văn bản",
         "tài liệu", "pdf", "jpg", "png", "bmp", "tiff", "chuyển đổi",
         "text", "extract", "đọc", "chữ", "ký tự", "bảng", "biểu đồ"]
    examples :=
        ["Xử lý ảnh này bằng OCR",
         "Chuyển đổi tài liệu PDF thành text",
         "Nhận dạng văn bản trong hình ảnh",
         "Scan và đọc nội dung bảng biểu",
         "Extract text từ file ảnh"]
    capabilities :=
        ["OCR văn bản", "Xử lý ảnh", "Nhận dạng ký tự", "Chuyển đổi tài liệu",
         "Extract text", "Scan tài liệu", "Nhận dạng bảng biểu"] }

/-- The `"general"` entry of `_initialize_agent_profiles`. -/
def generalProfile : AgentProfile :=
  { name := "General Agent"
    description := "Trợ lý tổng quát, trả lời câu hỏi, tư vấn, hỗ trợ, lập trình"
    keywords :=
        ["hỏi", "giúp", "tư vấn", "hướng dẫn", "cách", "làm sao", "tại sao",
         "là gì", "như thế nào", "khi nào", "ở đâu", "ai", "cái gì", "tại sao",
         "giải thích", "mô tả", "so sánh", "phân biệt", "ưu nhược điểm",
         "code", "lập trình", "programming", "python", "javascript", "java",
         "function", "class", "variable", "debug", "bug", "sửa lỗi",
         "viết", "tạo", "xây dựng", "phát triển", "thiết kế"]
    examples :=
        ["Hôm nay là ngày gì?",
         "Giải thích về machine learning",
         "So sánh iPhone và Samsung",
         "Hướng dẫn nấu phở",
         "Làm sao viết function Python?",
         "Cách debug lỗi JavaScript",
         "Tạo API REST với Flask",
         "Tư vấn chọn laptop"]
    capabilities :=
        ["Trả lời câu hỏi", "Tư vấn", "Hướng dẫn", "Giải thích", "So sánh",
         "Phân tích", "Đưa ra gợi ý", "Hỗ trợ tổng quát", "Lập trình", "Code",
         "Debug", "Viết function", "Tạo API", "Phát triển phần mềm"] }

/-- Registry `SemanticRouter._initialize_agent_profiles`: the fixed registry, an
insertion-ordered dict, here an association list in the same order with
the exact keyword data of the source. -/
def agent_profiles : List (String × AgentProfile) :=
  [("math", mathProfile), ("research", researchProfile),
   ("ocr", ocrProfile), ("general", generalProfile)]

/-- Result of `_analyze_context_with_ai`: a dict with (at least) the
`intent`/`domain`/`complexity` keys.  Arbitrary strings cover both the
offline default and any JSON the LLM may return (missing keys are read
back with `context.get(key, default)`, i.e. as some fixed string). -/
structure ContextInfo where
  intent : String
  domain : String
  complexity : String
deriving DecidableEq, Repr

/-- The default returned by `_analyze_context_with_ai` when the Groq
client is unavailable or the call/parse fails. -/
def defaultContext : ContextInfo :=
  ⟨"unknown", "general", "medium"⟩

/-- The external embedding model, abstracted.  `modelAvailable` is
whether `SentenceTransformer` loaded (`self.model is not None`; profile
embeddings are computed exactly when it did).  `cosine prompt key` is
the cosine-similarity value `np.dot(...)/(norm*norm)` would produce for
the prompt and the profile registered under `key`. -/
structure EmbedEnv where
  modelAvailable : Bool
  cosine : String → String → ℚ

/-- First half of `SemanticRouter._calculate_keyword_score`: the number of
profile keywords occurring as substrings of the lower-cased prompt
(`sum(1 for keyword in agent_profile.keywords if keyword in prompt_lower)`). -/
def keywordMatches (prompt : String) (p : AgentProfile) : Nat :=
  (p.keywords.filter (fun k => strContains (pyLower prompt) k)).length

/-- Second half of `SemanticRouter._calculate_keyword_score`: the ratio. -/
def calculate_keyword_score (prompt : String) (p : AgentProfile) : ℚ :=
  if p.keywords.isEmpty then 0
  else (keywordMatches prompt p : ℚ) / (p.keywords.length : ℚ)

/-- Method `SemanticRouter._calculate_semantic_similarity`: cosine similarity of
the prompt and profile embeddings when the model is available, otherwise
the keyword-ratio fallback (the same computation as the keyword score). -/
def calculate_semantic_similarity (env : EmbedEnv) (prompt key : String)
    (p : AgentProfile) : ℚ :=
  if env.modelAvailable then env.cosine prompt key
  else calculate_keyword_score prompt p

/-- Method `SemanticRouter._calculate_context_score`: rule-based bonus from the
classified intent/domain/complexity, capped at `1.0`.  The branch
structure (including the dead `"code"` branches — no profile is
registered under that key) mirrors the source. -/
def calculate_context_score (ctx : ContextInfo) (agent_name : String) : ℚ :=
  let s1 : ℚ :=
    if agent_name = "math" ∧ (ctx.intent = "solve" ∨ ctx.intent = "calculate") then 3/10
    else if agent_name = "research" ∧ (ctx.intent = "research" ∨ ctx.intent = "learn") then 3/10
    else if agent_name = "ocr" ∧ ctx.intent = "process" then 3/10
    else if agent_name = "code" ∧ (ctx.intent = "solve" ∨ ctx.intent = "create") then 3/10
    else if agent_name = "general" ∧ (ctx.intent = "help" ∨ ctx.intent = "learn") then 3/10
    else 0
  let s2 : ℚ :=
    if agent_name = "math" ∧ (ctx.domain = "math" ∨ ctx.domain = "science") then 2/10
    else if agent_name = "research" ∧
        (ctx.domain = "business" ∨ ctx.domain = "tech" ∨ ctx.domain = "science") then 2/10
    else if agent_name = "code" ∧ ctx.domain = "tech" then 2/10
    else if agent_name = "general" then 1/10
    else 0
  let s3 : ℚ :=
    if ctx.complexity = "complex" ∧ (agent_name = "math" ∨ agent_name = "code") then 1/10
    else 0
  min (s1 + s2 + s3) 1

/-- One entry of the `agent_scores` dict built inside `route`. -/
structure ScoreBreakdown where
  score : ℚ
  semantic : ℚ
  keyword : ℚ
  context : ℚ
deriving DecidableEq, Repr

/-- Step 2 of `route`: per-candidate scoring over the registry, in
registry iteration order, with the weighted combination
`semantic*0.4 + keyword*0.3 + context*0.3`. -/
def agentScores (env : EmbedEnv) (ctx : ContextInfo) (prompt : String) :
    List (String × ScoreBreakdown) :=
  agent_profiles.map (fun e =>
    let semantic_score := calculate_semantic_similarity env prompt e.1 e.2
    let keyword_score := calculate_keyword_score prompt e.2
    let context_score := calculate_context_score ctx e.1
    (e.1,
     { score := semantic_score * (4/10) + keyword_score * (3/10) +
         context_score * (3/10)
       semantic := semantic_score
       keyword := keyword_score
       context := context_score }))

/-- The step of Python's `max(..., key=lambda x: x[1]["score"])`: the
current best is replaced only by a strictly larger score. -/
def pickStep (best y : String × ScoreBreakdown) : String × ScoreBreakdown :=
  if best.2.score < y.2.score then y else best

/-- Python's `max(items, key=lambda x: x[1]["score"])` over an
insertion-ordered dict: scan left to right, replacing the current best
only on a strictly larger score — so the first maximal item wins ties. -/
def pyMaxByScore (l : List (String × ScoreBreakdown)) :
    Option (String × ScoreBreakdown) :=
  match l with
  | [] => none
  | x :: xs => some (xs.foldl pickStep x)

/-- Step 4 of `route`: the reasoning string from the threshold checks. -/
def buildReasoning (s : ScoreBreakdown) : String :=
  let parts :=
    (if (7:ℚ)/10 < s.semantic then ["Tương đồng ngữ nghĩa cao"] else []) ++
    (if (3:ℚ)/10 < s.keyword then ["Khớp từ khóa chuyên môn"] else []) ++
    (if (5:ℚ)/10 < s.context then ["Phù hợp với ngữ cảnh"] else [])
  if parts.isEmpty then "Phân tích tổng hợp" else String.intercalate "; " parts

/-- Dataclass `RoutingDecision`; `scores` is the `"scores"` entry of
`context_analysis` (`"best_match"` duplicates `agent_type` and
`"context"` duplicates the `ctx` argument, so they are not repeated). -/
structure RoutingDecision where
  agent_type : String
  confidence : ℚ
  reasoning : String
  scores : List (String × ScoreBreakdown)
deriving DecidableEq, Repr

/-- Method `SemanticRouter.route`: score every registered profile, pick the
best by Python `max` (first maximal wins), and package the decision.
`ctx` is the outcome of the `_analyze_context_with_ai` step (the
default when Groq is unavailable or fails).  The registry is non-empty,
so the `max` never sees an empty sequence; `.getD` supplies the (never
used) fallback pair for totality. -/
def route (env : EmbedEnv) (ctx : ContextInfo) (prompt : String) :
    RoutingDecision :=
  let agent_scores := agentScores env ctx prompt
  let best := (pyMaxByScore agent_scores).getD
    ("general", ⟨0, 0, 0, 0⟩)
  { agent_type := best.1
    confidence := best.2.score
    reasoning := buildReasoning best.2
    scores := agent_scores }

/-- The fully degraded configuration: no Groq client (context analysis
returns the default) and no embedding model (semantic similarity falls
back to the keyword ratio). -/
def envOffline : EmbedEnv :=
  { modelAvailable := false, cosine := fun _ _ => 0 }

/-- Routing when both the embedding model and the LLM are unavailable. -/
def routeOffline (prompt : String) : RoutingDecision :=
  route envOffline defaultContext prompt

/-- An environment whose embedding model is loaded and yields cosine
similarity `-1` for every comparison (the lower end of the cosine
range), with the LLM unavailable. -/
def envNeg : EmbedEnv :=
  { modelAvailable := true, cosine := fun _ _ => -1 }

/-! ## Long-term memory dataclass (`src/Memory/long_term.py`) -/

/-- Dataclass `LongTermMemory`.  `importance`, `created_at` and
`last_accessed` are Python floats (rationals here); `access_count` is a
Python int; `context` and `source` are `Optional[str]`. -/
structure LongTermMemory where
  content : String
  memory_type : String
  importance : ℚ
  created_at : ℚ
  last_accessed : ℚ
  access_count : Int
  tags : List String
  context : Option String
  source : Option String
deriving DecidableEq, Repr

/-- A Python value as it appears in the dict produced by
`dataclasses.asdict` on a `LongTermMemory` (strings, floats, ints,
lists of strings, and `None`). -/
inductive PyVal where
  | str : String → PyVal
  | num : ℚ → PyVal
  | int : Int → PyVal
  | strs : List String → PyVal
  | none : PyVal
deriving DecidableEq, Repr

/-- An `Optional[str]` field as a `PyVal`. -/
def optStrVal : Option String → PyVal
  | Option.none => PyVal.none
  | Option.some s => PyVal.str s

/-- Serialisation `LongTermMemory.to_dict`: `dataclasses.asdict`, which lists the
fields in declaration order. -/
def LongTermMemory.to_dict (m : LongTermMemory) : List (String × PyVal) :=
  [("content", PyVal.str m.content),
   ("memory_type", PyVal.str m.memory_type),
   ("importance", PyVal.num m.importance),
   ("created_at", PyVal.num m.created_at),
   ("last_accessed", PyVal.num m.last_accessed),
   ("access_count", PyVal.int m.access_count),
   ("tags", PyVal.strs m.tags),
   ("context", optStrVal m.context),
   ("source", optStrVal m.source)]

/-- Read a required string field out of the dict. -/
def getStr (d : List (String × PyVal)) (k : String) : Option String :=
  match d.lookup k with
  | Option.some (PyVal.str s) => Option.some s
  | _ => Option.none

/-- Read a required float field out of the dict. -/
def getNum (d : List (String × PyVal)) (k : String) : Option ℚ :=
  match d.lookup k with
  | Option.some (PyVal.num q) => Option.some q
  | _ => Option.none

/-- Read a required int field out of the dict. -/
def getInt (d : List (String × PyVal)) (k : String) : Option Int :=
  match d.lookup k with
  | Option.some (PyVal.int n) => Option.some n
  | _ => Option.none

/-- Read a list-of-strings field out of the dict. -/
def getStrs (d : List (String × PyVal)) (k : String) : Option (List String) :=
  match d.lookup k with
  | Option.some (PyVal.strs l) => Option.some l
  | _ => Option.none

/-- Read an `Optional[str]` field out of the dict (`None` is a value). -/
def getOptStr (d : List (String × PyVal)) (k : String) :
    Option (Option String) :=
  match d.lookup k with
  | Option.some (PyVal.str s) => Option.some (Option.some s)
  | Option.some PyVal.none => Option.some Option.none
  | _ => Option.none

/-- Deserialisation `LongTermMemory.from_dict`: `cls(**data)` — every constructor field
is taken from the dict entry of the same name; a missing or ill-typed
entry is a `TypeError`, i.e. failure. -/
def LongTermMemory.from_dict (d : List (String × PyVal)) :
    Option LongTermMemory := do
  let content ← getStr d "content"
  let memory_type ← getStr d "memory_type"
  let importance ← getNum d "importance"
  let created_at ← getNum d "created_at"
  let last_accessed ← getNum d "last_accessed"
  let access_count ← getInt d "access_count"
  let tags ← getStrs d "tags"
  let context ← getOptStr d "context"
  let source ← getOptStr d "source"
  pure ⟨content, memory_type, importance, created_at, last_accessed,
        access_count, tags, context, source⟩

/-! ## Vector store and memory manager
(`src/Memory/qdrant_store.py`, `src/Memory/long_term.py`)

The Qdrant collection is a list of stored points.  The payload written by
`LongTermMemoryManager.store_memory` always contains the same eight keys,
so a point's payload is modelled as a structure.  The embedding service is
abstracted into a per-record similarity value for the query at hand. -/

/-- One stored point: id, content, and the payload metadata written by
`store_memory` (note `tags` is stored as a JSON *string* via
`json.dumps`). -/
structure StoredPoint where
  id : String
  content : String
  memory_type : String
  importance : ℚ
  created_at : ℚ
  last_accessed : ℚ
  access_count : Int
  tagsJson : String
  context : String
  source : String
deriving DecidableEq, Repr

/-- A search hit as returned by `QdrantVectorStore.search_memories`:
the point together with its cosine-similarity score. -/
structure SearchHit where
  point : StoredPoint
  similarity : ℚ
deriving DecidableEq, Repr

/-- Model of `QdrantVectorStore.search_memories`, with the Qdrant client's
`search` modelled per its documented semantics: scores every point with
the cosine similarity `sim` of its vector against the query vector,
keeps only points with `score ≥ score_threshold` (a minimum-inclusive
cutoff) when a threshold is given, ranks by descending score and
returns at most `n_results` hits.  `memory_type` was never passed by
`retrieve_memories`, so the payload filter is `none` here. -/
def search_memories (store : List StoredPoint) (sim : StoredPoint → ℚ)
    (n_results : Nat) (threshold : Option ℚ) : List SearchHit :=
  let kept := store.filter (fun p =>
    match threshold with
    | Option.some t => t ≤ sim p
    | Option.none => true)
  let ranked := kept.mergeSort (fun a b => sim b ≤ sim a)
  (ranked.take n_results).map (fun p => ⟨p, sim p⟩)

/-- One element of the list returned by
`LongTermMemoryManager.retrieve_memories` (the `memory_result` dict;
`tags` carries the JSON string stored in the payload). -/
structure MemoryResult where
  id : String
  content : String
  memory_type : String
  importance : ℚ
  created_at : ℚ
  last_accessed : ℚ
  access_count : Int
  tagsJson : String
  context : String
  source : String
  similarity_score : ℚ
deriving DecidableEq, Repr

/-- The body of the `for result in search_results` loop in
`retrieve_memories`: drop hits failing the `memory_type` /
`min_importance` post-filters (both guarded by Python truthiness, so a
`""` type or a `0.0` threshold disables the filter), bump
`access_count`/`last_accessed` **on the local result dict only**, and
stop once `max_results` (when truthy) results are collected. -/
def collectResults (memory_type : Option String) (min_importance : Option ℚ)
    (now : ℚ) : List SearchHit → List MemoryResult
  | [] => []
  | h :: hs =>
      let skipType : Bool :=
        match memory_type with
        | Option.some mt => mt != "" && h.point.memory_type != mt
        | Option.none => false
      let skipImp : Bool :=
        match min_importance with
        | Option.some mi => mi != 0 && decide (h.point.importance < mi)
        | Option.none => false
      if skipType || skipImp then
        collectResults memory_type min_importance now hs
      else
        { id := h.point.id
          content := h.point.content
          memory_type := h.point.memory_type
          importance := h.point.importance
          created_at := h.point.created_at
          last_accessed := now
          access_count := h.point.access_count + 1
          tagsJson := h.point.tagsJson
          context := h.point.context
          source := h.point.source
          similarity_score := h.similarity } ::
        collectResults memory_type min_importance now hs

/-- Truncation by `max_results`: the loop breaks as soon as
`len(filtered_memories) >= max_results`, which (for a truthy
`max_results`) is exactly taking the first `max_results` collected
results. -/
def applyMaxResults (max_results : Option Nat) (l : List MemoryResult) :
    List MemoryResult :=
  match max_results with
  | Option.some k => if k ≠ 0 then l.take k else l
  | Option.none => l

/-- Model of `LongTermMemoryManager.retrieve_memories` on the success path:
search the vector store with `n_results = max_results or
self.max_memories` and `threshold = self.similarity_threshold`, then
post-filter, bump the access bookkeeping on the returned dicts, and cut
off at `max_results`.  The function returns the result list together
with the vector store afterwards: the code performs **no write-back**,
so the store is returned unchanged. -/
def retrieve_memories (store : List StoredPoint) (sim : StoredPoint → ℚ)
    (similarity_threshold : ℚ) (max_memories : Nat) (now : ℚ)
    (memory_type : Option String) (max_results : Option Nat)
    (min_importance : Option ℚ) :
    List MemoryResult × List StoredPoint :=
  let n_results :=
    match max_results with
    | Option.some k => if k ≠ 0 then k else max_memories
    | Option.none => max_memories
  let hits := search_memories store sim n_results
    (Option.some similarity_threshold)
  (applyMaxResults max_results (collectResults memory_type min_importance now hits),
   store)

/-- Model of `LongTermMemoryManager.get_memory_by_id`: a pure read of the vector
store (`QdrantVectorStore.get_memory` is `client.retrieve`; nothing is
written anywhere).  The store is returned unchanged alongside the
result to make the frame explicit. -/
def get_memory_by_id (store : List StoredPoint) (memory_id : String) :
    Option StoredPoint × List StoredPoint :=
  ((store.find? (fun p => p.id = memory_id)), store)

/-! ## Helper lemmas -/

/-- With the offline default context, the math profile gets no context
bonus. -/
lemma ctx_default_math : calculate_context_score defaultContext "math" = 0 := by
  simp [calculate_context_score, defaultContext]

/-- With the offline default context, the research profile gets no
context bonus. -/
lemma ctx_default_research :
    calculate_context_score defaultContext "research" = 0 := by
  simp [calculate_context_score, defaultContext]

/-- With the offline default context, the OCR profile gets no context
bonus. -/
lemma ctx_default_ocr : calculate_context_score defaultContext "ocr" = 0 := by
  simp [calculate_context_score, defaultContext]

/-- With the offline default context, the general profile keeps its
baseline `0.1` bonus. -/
lemma ctx_default_general :
    calculate_context_score defaultContext "general" = 1/10 := by
  simp [calculate_context_score, defaultContext]
  norm_num

/-- Closed-form evaluation of the keyword score from the match count and
keyword-list length. -/
lemma kwEval (prompt : String) (p : AgentProfile) (n d : Nat)
    (h1 : keywordMatches prompt p = n) (h2 : p.keywords.length = d)
    (h3 : 0 < d) : calculate_keyword_score prompt p = (n : ℚ) / (d : ℚ) := by
  have hne : p.keywords.isEmpty = false := by
    cases hk : p.keywords with
    | nil => rw [hk] at h2; simp at h2; omega
    | cons a l => simp [hk]
  rw [calculate_keyword_score, hne, h1, h2]
  simp

/-- The keyword score is non-negative. -/
lemma kw_nonneg (prompt : String) (p : AgentProfile) :
    0 ≤ calculate_keyword_score prompt p := by
  rw [calculate_keyword_score]
  split
  · exact le_refl 0
  · positivity

/-- The keyword score is at most `1` (the match count is bounded by the
keyword count). -/
lemma kw_le_one (prompt : String) (p : AgentProfile) :
    calculate_keyword_score prompt p ≤ 1 := by
  rw [calculate_keyword_score]
  split
  · exact zero_le_one
  · rename_i hne
    have hlen : 0 < p.keywords.length := by
      cases hk : p.keywords with
      | nil => rw [hk] at hne; simp at hne
      | cons a l => simp [hk]
    have hcount : keywordMatches prompt p ≤ p.keywords.length :=
      List.length_filter_le _ _
    rw [div_le_one (by exact_mod_cast hlen)]
    exact_mod_cast hcount

/-- The context score is non-negative. -/
lemma ctx_nonneg (ctx : ContextInfo) (name : String) :
    0 ≤ calculate_context_score ctx name := by
  simp only [calculate_context_score]
  refine le_min ?_ zero_le_one
  refine add_nonneg (add_nonneg ?_ ?_) ?_ <;>
    · repeat' split
      all_goals norm_num

/-- The context score is at most `1` (the `min(score, 1.0)` cap). -/
lemma ctx_le_one (ctx : ContextInfo) (name : String) :
    calculate_context_score ctx name ≤ 1 := by
  rw [calculate_context_score]
  exact min_le_right _ _

/-- The scores list always has the four registry keys, in registry
order. -/
lemma agentScores_keys (env : EmbedEnv) (ctx : ContextInfo) (prompt : String) :
    (agentScores env ctx prompt).map Prod.fst =
      ["math", "research", "ocr", "general"] := by
  simp [agentScores, agent_profiles]

/-- Every entry of the scores list is the weighted combination of its
own sub-scores, with the keyword sub-score given by
`_calculate_keyword_score` of the profile registered under its key. -/
lemma agentScores_spec (env : EmbedEnv) (ctx : ContextInfo) (prompt : String) :
    ∀ e ∈ agentScores env ctx prompt,
      e.2.score = e.2.semantic * (4/10) + e.2.keyword * (3/10) +
          e.2.context * (3/10) ∧
      e.2.context = calculate_context_score ctx e.1 ∧
      ∃ p, (e.1, p) ∈ agent_profiles ∧
        e.2.keyword = calculate_keyword_score prompt p ∧
        e.2.semantic = calculate_semantic_similarity env prompt e.1 p := by
  intro e he
  rw [agentScores, List.mem_map] at he
  obtain ⟨entry, hmem, rfl⟩ := he
  exact ⟨rfl, rfl, entry.2, hmem, rfl, rfl⟩

/-- Unfolding of `pyMaxByScore` as a fold of `pickStep`. -/
lemma pyMaxByScore_cons (x : String × ScoreBreakdown)
    (xs : List (String × ScoreBreakdown)) :
    pyMaxByScore (x :: xs) = some (xs.foldl pickStep x) := rfl

/-- Behaviour of the `max` fold: either nothing beat the accumulator, or
the result is the first entry of the scanned list that strictly beats
both the accumulator and everything before it, and nothing after it is
strictly larger. -/
lemma pickStep_foldl_spec (xs : List (String × ScoreBreakdown)) :
    ∀ acc : String × ScoreBreakdown,
      (xs.foldl pickStep acc = acc ∧
        ∀ y ∈ xs, y.2.score ≤ acc.2.score) ∨
      (∃ l₁ l₂, xs = l₁ ++ (xs.foldl pickStep acc) :: l₂ ∧
        acc.2.score < (xs.foldl pickStep acc).2.score ∧
        (∀ y ∈ l₁, y.2.score < (xs.foldl pickStep acc).2.score) ∧
        (∀ y ∈ l₂, y.2.score ≤ (xs.foldl pickStep acc).2.score)) := by
  induction xs with
  | nil => intro acc; exact Or.inl ⟨rfl, by simp⟩
  | cons x t ih =>
      intro acc
      by_cases hx : acc.2.score < x.2.score
      · have hstep : (x :: t).foldl pickStep acc = t.foldl pickStep x := by
          simp [List.foldl_cons, pickStep, hx]
        rcases ih x with ⟨heq, hall⟩ | ⟨l₁, l₂, hdecomp, hlt, hbefore, hafter⟩
        · refine Or.inr ⟨[], t, ?_, ?_, by simp, ?_⟩
          · simp [hstep, heq]
          · rw [hstep, heq]; exact hx
          · intro y hy; rw [hstep, heq]; exact hall y hy
        · refine Or.inr ⟨x :: l₁, l₂, ?_, ?_, ?_, ?_⟩
          · rw [hstep, List.cons_append, ← hdecomp]
          · rw [hstep]
            exact lt_trans hx hlt
          · intro y hy
            rw [hstep]
            rcases List.mem_cons.mp hy with rfl | hy'
            · exact hlt
            · exact hbefore y hy'
          · intro y hy; rw [hstep]; exact hafter y hy
      · have hstep : (x :: t).foldl pickStep acc = t.foldl pickStep acc := by
          simp [List.foldl_cons, pickStep, hx]
        rcases ih acc with ⟨heq, hall⟩ | ⟨l₁, l₂, hdecomp, hlt, hbefore, hafter⟩
        · refine Or.inl ⟨by rw [hstep, heq], ?_⟩
          intro y hy
          rcases List.mem_cons.mp hy with rfl | hy'
          · exact le_of_not_lt hx
          · exact hall y hy'
        · refine Or.inr ⟨x :: l₁, l₂, ?_, ?_, ?_, ?_⟩
          · rw [hstep, List.cons_append, ← hdecomp]
          · rw [hstep]; exact hlt
          · intro y hy
            rw [hstep]
            rcases List.mem_cons.mp hy with rfl | hy'
            · exact lt_of_le_of_lt (le_of_not_lt hx) hlt
            · exact hbefore y hy'
          · intro y hy; rw [hstep]; exact hafter y hy

/-- Python `max` over a non-empty list returns the first entry attaining
the maximal score: everything strictly before it scores strictly less,
everything after it scores no more. -/
lemma pyMaxByScore_first_max (x : String × ScoreBreakdown)
    (xs : List (String × ScoreBreakdown)) :
    ∃ l₁ l₂ e, pyMaxByScore (x :: xs) = some e ∧
      x :: xs = l₁ ++ e :: l₂ ∧
      (∀ y ∈ l₁, y.2.score < e.2.score) ∧
      (∀ y ∈ l₂, y.2.score ≤ e.2.score) := by
  rcases pickStep_foldl_spec xs x with ⟨heq, hall⟩ |
    ⟨l₁, l₂, hdecomp, hlt, hbefore, hafter⟩
  · exact ⟨[], xs, x, by rw [pyMaxByScore_cons, heq], by simp,
      by simp, hall⟩
  · exact ⟨x :: l₁, l₂, xs.foldl pickStep x, pyMaxByScore_cons x xs,
      by rw [List.cons_append, ← hdecomp],
      (by
        intro y hy
        rcases List.mem_cons.mp hy with rfl | hy'
        · exact hlt
        · exact hbefore y hy'), hafter⟩

/-- The scores list in the fully degraded configuration: semantic falls
back to the keyword ratio and the context scores are the offline
defaults. -/
lemma agentScores_offline (prompt : String) :
    agentScores envOffline defaultContext prompt =
      [("math", ⟨calculate_keyword_score prompt mathProfile * (4/10) +
          calculate_keyword_score prompt mathProfile * (3/10) + 0 * (3/10),
          calculate_keyword_score prompt mathProfile,
          calculate_keyword_score prompt mathProfile, 0⟩),
       ("research", ⟨calculate_keyword_score prompt researchProfile * (4/10) +
          calculate_keyword_score prompt researchProfile * (3/10) + 0 * (3/10),
          calculate_keyword_score prompt researchProfile,
          calculate_keyword_score prompt researchProfile, 0⟩),
       ("ocr", ⟨calculate_keyword_score prompt ocrProfile * (4/10) +
          calculate_keyword_score prompt ocrProfile * (3/10) + 0 * (3/10),
          calculate_keyword_score prompt ocrProfile,
          calculate_keyword_score prompt ocrProfile, 0⟩),
       ("general", ⟨calculate_keyword_score prompt generalProfile * (4/10) +
          calculate_keyword_score prompt generalProfile * (3/10) +
          (1/10) * (3/10),
          calculate_keyword_score prompt generalProfile,
          calculate_keyword_score prompt generalProfile, 1/10⟩)] := by
  simp only [agentScores, agent_profiles, List.map_cons, List.map_nil,
    calculate_semantic_similarity, envOffline, Bool.false_eq_true, if_false,
    ctx_default_math, ctx_default_research, ctx_default_ocr,
    ctx_default_general]

/-- The semantic similarity lies in `[-1, 1]` as long as the cosine
value (when the model is available) does: the keyword fallback lies in
`[0, 1]`. -/
lemma sem_bounds (env : EmbedEnv) (prompt key : String) (p : AgentProfile)
    (h : env.modelAvailable = true →
      -1 ≤ env.cosine prompt key ∧ env.cosine prompt key ≤ 1) :
    -1 ≤ calculate_semantic_similarity env prompt key p ∧
      calculate_semantic_similarity env prompt key p ≤ 1 := by
  rw [calculate_semantic_similarity]
  cases hm : env.modelAvailable with
  | true => simpa [hm] using h hm
  | false =>
      simp only [hm, Bool.false_eq_true, if_false]
      exact ⟨le_trans (by norm_num) (kw_nonneg prompt p), kw_le_one prompt p⟩

/-- Each candidate's final score lies in `[-2/5, 1]` when each cosine
similarity lies in `[-1, 1]`, and is non-negative when each cosine
similarity is. -/
lemma entry_score_bounds (env : EmbedEnv) (ctx : ContextInfo) (prompt : String)
    (hcos : ∀ k, env.modelAvailable = true →
      -1 ≤ env.cosine prompt k ∧ env.cosine prompt k ≤ 1) :
    ∀ e ∈ agentScores env ctx prompt,
      (-(2/5) ≤ e.2.score ∧ e.2.score ≤ 1) ∧
      ((∀ k, env.modelAvailable = true → 0 ≤ env.cosine prompt k) →
        0 ≤ e.2.score) := by
  intro e he
  obtain ⟨hform, hctx, p, _, hkw, hsem⟩ := agentScores_spec env ctx prompt e he
  have hs := sem_bounds env prompt e.1 p (hcos e.1)
  rw [← hsem] at hs
  have hk1 := kw_nonneg prompt p
  have hk2 := kw_le_one prompt p
  rw [← hkw] at hk1 hk2
  have hc1 := ctx_nonneg ctx e.1
  have hc2 := ctx_le_one ctx e.1
  rw [← hctx] at hc1 hc2
  refine ⟨⟨?_, ?_⟩, ?_⟩
  · rw [hform]; linarith [hs.1]
  · rw [hform]; linarith [hs.2]
  · intro hnn
    have hs0 : 0 ≤ e.2.semantic := by
      rw [hsem, calculate_semantic_similarity]
      cases hm : env.modelAvailable with
      | true => simpa [hm] using hnn e.1 hm
      | false =>
          simp only [hm, Bool.false_eq_true, if_false]
          exact kw_nonneg prompt p
    rw [hform]; linarith

/-- The routed decision's agent and confidence come from one entry of
the scores list. -/
lemma route_best_mem (env : EmbedEnv) (ctx : ContextInfo) (prompt : String) :
    ∃ e ∈ agentScores env ctx prompt,
      (route env ctx prompt).agent_type = e.1 ∧
      (route env ctx prompt).confidence = e.2.score := by
  cases h : agentScores env ctx prompt with
  | nil =>
      exfalso
      have hkeys := agentScores_keys env ctx prompt
      rw [h] at hkeys
      simp at hkeys
  | cons x xs =>
      obtain ⟨l₁, l₂, e, hsome, hdec, _, _⟩ := pyMaxByScore_first_max x xs
      refine ⟨e, ?_, by simp [route, h, hsome], by simp [route, h, hsome]⟩
      rw [hdec]
      exact List.mem_append_right _ (List.mem_cons_self _ _)


/-- A deque append under the length invariant, as a single `drop`. -/
lemma dequeAppend_eq_drop (N : Nat) (msgs : List Message) (m : Message)
    (_h : msgs.length ≤ N) :
    dequeAppend N msgs m = (msgs ++ [m]).drop (msgs.length + 1 - N) := by
  rw [dequeAppend]
  by_cases hc : (msgs ++ [m]).length ≤ N
  · rw [if_pos hc]
    have h0 : msgs.length + 1 - N = 0 := by
      simp only [List.length_append, List.length_cons, List.length_nil] at hc
      omega
    rw [h0, List.drop_zero]
  · rw [if_neg hc]
    simp

/-- The deque append keeps the length within the bound. -/
lemma dequeAppend_length_le (N : Nat) (msgs : List Message) (m : Message)
    (h : msgs.length ≤ N) : (dequeAppend N msgs m).length ≤ N := by
  rw [dequeAppend_eq_drop N msgs m h, List.length_drop]
  simp only [List.length_append, List.length_cons, List.length_nil]
  omega

/-- The `add_message` method never changes the configured capacity. -/
lemma addSeq_maxSize (calls : List Message) :
    ∀ mem : ShortTermMemory, (addSeq mem calls).maxSize = mem.maxSize := by
  induction calls with
  | nil => intro mem; rfl
  | cons c t ih =>
      intro mem
      have hstep : addSeq mem (c :: t) =
          addSeq (mem.add_message c.role c.content c.timestamp c.metadata).1 t :=
        rfl
      rw [hstep, ih]
      rfl

/-- The capacity invariant: if the stored messages fit the bound, they
still do after any sequence of `add_message` calls. -/
lemma addSeq_length_le (calls : List Message) :
    ∀ mem : ShortTermMemory, mem.messages.length ≤ mem.maxSize →
      (addSeq mem calls).messages.length ≤ mem.maxSize := by
  induction calls with
  | nil => intro mem h; exact h
  | cons c t ih =>
      intro mem h
      have hstep : addSeq mem (c :: t) =
          addSeq (mem.add_message c.role c.content c.timestamp c.metadata).1 t :=
        rfl
      rw [hstep]
      exact ih _ (dequeAppend_length_le mem.maxSize mem.messages _ h)

/-- Folding one more `dequeAppend` over an already-truncated list
advances the truncation point by one. -/
lemma dequeAppend_drop_step (N : Nat) (l : List Message) (m : Message) :
    dequeAppend N (l.drop (l.length - N)) m =
      (l ++ [m]).drop (l.length + 1 - N) := by
  have hlen : (l.drop (l.length - N)).length ≤ N := by
    rw [List.length_drop]; omega
  rw [dequeAppend_eq_drop N _ m hlen, List.length_drop]
  by_cases hc : l.length < N
  · have h1 : l.length - N = 0 := by omega
    rw [h1]
    simp [Nat.sub_zero]
  · push_neg at hc
    by_cases hN : N = 0
    · subst hN
      simp [List.drop_length]
    · have h2 : l.length - (l.length - N) + 1 - N = 1 := by omega
      rw [h2]
      have hd1 : (1 : Nat) ≤ (l.drop (l.length - N)).length := by
        rw [List.length_drop]; omega
      rw [List.drop_append_of_le_length hd1, List.drop_drop]
      have hd2 : l.length + 1 - N ≤ l.length := by omega
      rw [List.drop_append_of_le_length hd2]
      have h3 : l.length - N + 1 = l.length + 1 - N := by omega
      rw [h3]

/-- After any sequence of `add_message` calls starting from an empty
memory of capacity `N`, the stored messages are exactly the last `N`
added, in insertion order. -/
lemma addSeq_messages (N : Nat) (calls : List Message) :
    (addSeq ⟨N, []⟩ calls).messages = calls.drop (calls.length - N) := by
  induction calls using List.reverseRecOn with
  | nil => simp [addSeq]
  | append_singleton l m ih =>
      have hstep : addSeq (⟨N, []⟩ : ShortTermMemory) (l ++ [m]) =
          ((addSeq ⟨N, []⟩ l).add_message m.role m.content m.timestamp
            m.metadata).1 := by
        rw [addSeq, List.foldl_append]
        rfl
      have hmax := addSeq_maxSize l (⟨N, []⟩ : ShortTermMemory)
      rw [hstep, ShortTermMemory.add_message]
      simp only [hmax, ih]
      rw [dequeAppend_drop_step]
      simp

/-- Members of a `search_memories` result always carry a similarity at
least the `score_threshold` passed to the store. -/
lemma mem_search_sim (store : List StoredPoint) (sim : StoredPoint → ℚ)
    (n : Nat) (t : ℚ) (h : SearchHit)
    (hmem : h ∈ search_memories store sim n (some t)) : t ≤ h.similarity := by
  rw [search_memories] at hmem
  simp only [List.mem_map] at hmem
  obtain ⟨p, hp, rfl⟩ := hmem
  have hp2 := List.take_subset _ _ hp
  rw [List.mem_mergeSort] at hp2
  have hfil := (List.mem_filter.mp hp2).2
  simpa using hfil

/-- Every record produced by the `retrieve_memories` loop takes its
`similarity_score` from one of the search hits. -/
lemma mem_collectResults (mt : Option String) (mi : Option ℚ) (now : ℚ)
    (hits : List SearchHit) (r : MemoryResult)
    (h : r ∈ collectResults mt mi now hits) :
    ∃ hit ∈ hits, r.similarity_score = hit.similarity := by
  induction hits with
  | nil => simp [collectResults] at h
  | cons x t ih =>
      simp only [collectResults] at h
      split at h
      · obtain ⟨hit, hh, he⟩ := ih h
        exact ⟨hit, List.mem_cons_of_mem _ hh, he⟩
      · rcases List.mem_cons.mp h with rfl | h'
        · exact ⟨x, List.mem_cons_self _ _, rfl⟩
        · obtain ⟨hit, hh, he⟩ := ih h'
          exact ⟨hit, List.mem_cons_of_mem _ hh, he⟩

/-- The `max_results` truncation only drops results. -/
lemma applyMaxResults_subset (k : Option Nat) (l : List MemoryResult) :
    applyMaxResults k l ⊆ l := by
  cases k with
  | none => exact fun r hr => hr
  | some n =>
      simp only [applyMaxResults]
      split
      · exact List.take_subset _ _
      · exact fun r hr => hr

/-! ## Claim theorems -/

/-- C6: `route()` selects a candidate with the maximum `final_score`,
and when several candidates share the maximum, the candidate earliest in
the fixed registry iteration order is selected; being a pure function of
its inputs, the selection is identical on every call.  The selected
entry `e` splits the scores list as `l₁ ++ e :: l₂` with every earlier
candidate scoring strictly less and every later candidate scoring no
more — exactly "first-registered wins ties". -/
theorem c6_route_selects_first_maximal (env : EmbedEnv) (ctx : ContextInfo)
    (prompt : String) :
    ∃ l₁ l₂ e, agentScores env ctx prompt = l₁ ++ e :: l₂ ∧
      (route env ctx prompt).agent_type = e.1 ∧
      (route env ctx prompt).confidence = e.2.score ∧
      (∀ y ∈ l₁, y.2.score < e.2.score) ∧
      (∀ y ∈ l₂, y.2.score ≤ e.2.score) := by
  cases h : agentScores env ctx prompt with
  | nil =>
      have hkeys := agentScores_keys env ctx prompt
      rw [h] at hkeys
      simp at hkeys
  | cons x xs =>
      obtain ⟨l₁, l₂, e, hsome, hdec, hb, ha⟩ := pyMaxByScore_first_max x xs
      refine ⟨l₁, l₂, e, hdec, ?_, ?_, hb, ha⟩
      · simp [route, h, hsome]
      · simp [route, h, hsome]

/-- C6 witness: instantiation at the fully degraded environment and a
concrete prompt. -/
theorem c6_route_selects_first_maximal_witness :
    ∃ l₁ l₂ e, agentScores envOffline defaultContext "abc" = l₁ ++ e :: l₂ ∧
      (route envOffline defaultContext "abc").agent_type = e.1 ∧
      (route envOffline defaultContext "abc").confidence = e.2.score ∧
      (∀ y ∈ l₁, y.2.score < e.2.score) ∧
      (∀ y ∈ l₂, y.2.score ≤ e.2.score) :=
  c6_route_selects_first_maximal envOffline defaultContext "abc"

/-- C7: every per-candidate entry of the routing decision's score
breakdown satisfies
`final_score = 0.4·semantic + 0.3·keyword + 0.3·context`, and its
keyword sub-score is (number of profile keywords occurring as substrings
of the lower-cased request) / (total keyword count), with score `0` for
a profile with zero keywords. -/
theorem c7_final_score_formula (env : EmbedEnv) (ctx : ContextInfo)
    (prompt : String) :
    ∀ e ∈ (route env ctx prompt).scores,
      e.2.score = e.2.semantic * (4/10) + e.2.keyword * (3/10) +
          e.2.context * (3/10) ∧
      ∃ p, (e.1, p) ∈ agent_profiles ∧
        e.2.keyword = (if p.keywords.length = 0 then 0
          else (keywordMatches prompt p : ℚ) / (p.keywords.length : ℚ)) := by
  have hsc : (route env ctx prompt).scores = agentScores env ctx prompt := by
    simp [route]
  rw [hsc]
  intro e he
  obtain ⟨hform, _, p, hp, hkw, _⟩ := agentScores_spec env ctx prompt e he
  refine ⟨hform, p, hp, ?_⟩
  rw [hkw, calculate_keyword_score]
  by_cases hk : p.keywords = []
  · simp [hk]
  · have h1 : p.keywords.isEmpty = false := by simp [hk]
    have h2 : ¬ p.keywords.length = 0 := by simp [hk]
    rw [h1, if_neg h2]
    simp

/-- C7 witness: the formula checked on the concrete `"math"` entry of
the scores produced for the keyword-free prompt `"abc"` in the fully
degraded environment. -/
theorem c7_final_score_formula_witness :
    (("math", (⟨0, 0, 0, 0⟩ : ScoreBreakdown)) ∈
      (route envOffline defaultContext "abc").scores) ∧
    ((⟨0, 0, 0, 0⟩ : ScoreBreakdown).score =
      (⟨0, 0, 0, 0⟩ : ScoreBreakdown).semantic * (4/10) +
      (⟨0, 0, 0, 0⟩ : ScoreBreakdown).keyword * (3/10) +
      (⟨0, 0, 0, 0⟩ : ScoreBreakdown).context * (3/10) ∧
     ∃ p, ("math", p) ∈ agent_profiles ∧
       (⟨0, 0, 0, 0⟩ : ScoreBreakdown).keyword =
         (if p.keywords.length = 0 then 0
          else (keywordMatches "abc" p : ℚ) / (p.keywords.length : ℚ))) := by
  have h1 : calculate_keyword_score "abc" mathProfile = 0 := by
    rw [kwEval _ _ 0 25 (by decide) (by decide) (by norm_num)]; norm_num
  have h2 : calculate_keyword_score "abc" researchProfile = 0 := by
    rw [kwEval _ _ 0 23 (by decide) (by decide) (by norm_num)]; norm_num
  have h3 : calculate_keyword_score "abc" ocrProfile = 0 := by
    rw [kwEval _ _ 0 21 (by decide) (by decide) (by norm_num)]; norm_num
  have h4 : calculate_keyword_score "abc" generalProfile = 0 := by
    rw [kwEval _ _ 0 36 (by decide) (by decide) (by norm_num)]; norm_num
  have hscores : agentScores envOffline defaultContext "abc" =
      [("math", ⟨0, 0, 0, 0⟩), ("research", ⟨0, 0, 0, 0⟩),
       ("ocr", ⟨0, 0, 0, 0⟩), ("general", ⟨3/100, 0, 0, 1/10⟩)] := by
    rw [agentScores_offline, h1, h2, h3, h4]
    norm_num
  have hroute : (route envOffline defaultContext "abc").scores =
      agentScores envOffline defaultContext "abc" := by
    simp [route]
  have hmem : (("math", (⟨0, 0, 0, 0⟩ : ScoreBreakdown)) ∈
      (route envOffline defaultContext "abc").scores) := by
    rw [hroute, hscores]
    exact List.mem_cons_self _ _
  exact ⟨hmem, c7_final_score_formula envOffline defaultContext "abc" _ hmem⟩

/-- C9: serialising a `LongTermMemory` with `to_dict` and rebuilding it
with `from_dict` restores every field exactly. -/
theorem c9_to_dict_from_dict_roundtrip (m : LongTermMemory) :
    LongTermMemory.from_dict m.to_dict = some m := by
  cases m with
  | mk content memory_type importance created_at last_accessed
      access_count tags context source =>
    cases context <;> cases source <;> rfl

/-- C10: `get_messages` with `limit = 0` behaves exactly like
`get_messages` with no limit: Python's `if limit:` guard is false for
`0`, so all (role-filtered) stored messages are returned, not an empty
list. -/
theorem c10_zero_limit_returns_all (mem : ShortTermMemory)
    (rf : Option String) :
    mem.get_messages (some 0) rf = mem.get_messages none rf ∧
    mem.get_messages (some 0) none = mem.messages := by
  constructor <;> simp [ShortTermMemory.get_messages]

/-- C1 counterexample: with the embedding model loaded and every cosine
similarity at `-1` (the bottom of the cosine range, which the code never
clamps), routing the keyword-free prompt `"zzz"` yields a confidence of
`-37/100`, outside `[0, 1]`. -/
theorem c1_counterexample :
    (route envNeg defaultContext "zzz").confidence = -(37/100) ∧
    (route envNeg defaultContext "zzz").confidence < 0 := by
  have h1 : calculate_keyword_score "zzz" mathProfile = 0 := by
    rw [kwEval _ _ 0 25 (by decide) (by decide) (by norm_num)]; norm_num
  have h2 : calculate_keyword_score "zzz" researchProfile = 0 := by
    rw [kwEval _ _ 0 23 (by decide) (by decide) (by norm_num)]; norm_num
  have h3 : calculate_keyword_score "zzz" ocrProfile = 0 := by
    rw [kwEval _ _ 0 21 (by decide) (by decide) (by norm_num)]; norm_num
  have h4 : calculate_keyword_score "zzz" generalProfile = 0 := by
    rw [kwEval _ _ 0 36 (by decide) (by decide) (by norm_num)]; norm_num
  have hscores : agentScores envNeg defaultContext "zzz" =
      [("math", ⟨-(2/5), -1, 0, 0⟩), ("research", ⟨-(2/5), -1, 0, 0⟩),
       ("ocr", ⟨-(2/5), -1, 0, 0⟩), ("general", ⟨-(37/100), -1, 0, 1/10⟩)] := by
    simp only [agentScores, agent_profiles, List.map_cons, List.map_nil,
      calculate_semantic_similarity, envNeg, if_true,
      ctx_default_math, ctx_default_research, ctx_default_ocr,
      ctx_default_general, h1, h2, h3, h4]
    norm_num
  rw [route, hscores]
  norm_num [pyMaxByScore, pickStep]

/-- C1 (amended): `route()` always returns an `agent_type` drawn from
the registered profile names.  Its confidence is the selected
candidate's final score; given that each cosine similarity lies in the
cosine range `[-1, 1]`, the confidence lies in `[-2/5, 1]` (the code
never clamps a negative semantic term), and it lies in `[0, 1]` under
the additional assumption that every cosine similarity is non-negative
— in particular whenever the embedding model is unavailable and the
keyword fallback is used. -/
theorem c1_agent_registered_and_confidence_bounds (env : EmbedEnv)
    (ctx : ContextInfo) (prompt : String)
    (hcos : ∀ k, env.modelAvailable = true →
      -1 ≤ env.cosine prompt k ∧ env.cosine prompt k ≤ 1) :
    (route env ctx prompt).agent_type ∈
      (["math", "research", "ocr", "general"] : List String) ∧
    -(2/5) ≤ (route env ctx prompt).confidence ∧
    (route env ctx prompt).confidence ≤ 1 ∧
    ((∀ k, env.modelAvailable = true → 0 ≤ env.cosine prompt k) →
      0 ≤ (route env ctx prompt).confidence) := by
  obtain ⟨e, hmem, htype, hconf⟩ := route_best_mem env ctx prompt
  obtain ⟨⟨hlow, hhigh⟩, hnn⟩ := entry_score_bounds env ctx prompt hcos e hmem
  refine ⟨?_, ?_, ?_, ?_⟩
  · rw [htype, ← agentScores_keys env ctx prompt]
    exact List.mem_map_of_mem Prod.fst hmem
  · rw [hconf]; exact hlow
  · rw [hconf]; exact hhigh
  · intro h; rw [hconf]; exact hnn h

/-- C1 witness: the amended theorem applied at the fully degraded
environment (no embedding model, so the cosine hypotheses hold
vacuously) and the prompt `"abc"`. -/
theorem c1_agent_registered_and_confidence_bounds_witness :
    (route envOffline defaultContext "abc").agent_type ∈
      (["math", "research", "ocr", "general"] : List String) ∧
    -(2/5) ≤ (route envOffline defaultContext "abc").confidence ∧
    (route envOffline defaultContext "abc").confidence ≤ 1 ∧
    ((∀ k, envOffline.modelAvailable = true →
        0 ≤ envOffline.cosine "abc" k) →
      0 ≤ (route envOffline defaultContext "abc").confidence) :=
  c1_agent_registered_and_confidence_bounds envOffline defaultContext "abc"
    (by intro k hk; simp [envOffline] at hk)

/-- C4 counterexample: with the embedding model and the LLM both
unavailable, the request `"giải phương trình"` is routed to `"math"`
(two math keywords match, beating the general profile's baseline), not
to `"general"`. -/
theorem c4_counterexample :
    (routeOffline "giải phương trình").agent_type = "math" ∧
    (routeOffline "giải phương trình").agent_type ≠ "general" := by
  have h1 : calculate_keyword_score "giải phương trình" mathProfile = 2/25 := by
    rw [kwEval _ _ 2 25 (by decide) (by decide) (by norm_num)]; norm_num
  have h2 : calculate_keyword_score "giải phương trình" researchProfile = 0 := by
    rw [kwEval _ _ 0 23 (by decide) (by decide) (by norm_num)]; norm_num
  have h3 : calculate_keyword_score "giải phương trình" ocrProfile = 0 := by
    rw [kwEval _ _ 0 21 (by decide) (by decide) (by norm_num)]; norm_num
  have h4 : calculate_keyword_score "giải phương trình" generalProfile = 0 := by
    rw [kwEval _ _ 0 36 (by decide) (by decide) (by norm_num)]; norm_num
  have hscores : agentScores envOffline defaultContext "giải phương trình" =
      [("math", ⟨7/125, 2/25, 2/25, 0⟩), ("research", ⟨0, 0, 0, 0⟩),
       ("ocr", ⟨0, 0, 0, 0⟩), ("general", ⟨3/100, 0, 0, 1/10⟩)] := by
    rw [agentScores_offline, h1, h2, h3, h4]
    norm_num
  rw [routeOffline, route, hscores]
  refine ⟨?_, ?_⟩
  · norm_num [pyMaxByScore, pickStep]
  · norm_num [pyMaxByScore, pickStep]
    decide

/-- C4 (amended): when the embedding model and the LLM are both
unavailable, `route()` still returns a `RoutingDecision`; it falls back
to keyword-only scoring, and the decision is `"general"` (with
confidence `0.03` from the general profile's context baseline) whenever
no profile keyword occurs in the request — but a request matching a
specialist's keywords is routed to that specialist, not to
`"general"`. -/
theorem c4_offline_general_when_no_keywords (prompt : String)
    (h : ∀ e ∈ agent_profiles, keywordMatches prompt e.2 = 0) :
    (routeOffline prompt).agent_type = "general" ∧
    (routeOffline prompt).confidence = 3/100 := by
  have h1 : calculate_keyword_score prompt mathProfile = 0 := by
    rw [kwEval prompt mathProfile 0 25
      (h ("math", mathProfile) (by simp [agent_profiles])) (by decide) (by norm_num)]
    norm_num
  have h2 : calculate_keyword_score prompt researchProfile = 0 := by
    rw [kwEval prompt researchProfile 0 23
      (h ("research", researchProfile) (by simp [agent_profiles])) (by decide) (by norm_num)]
    norm_num
  have h3 : calculate_keyword_score prompt ocrProfile = 0 := by
    rw [kwEval prompt ocrProfile 0 21
      (h ("ocr", ocrProfile) (by simp [agent_profiles])) (by decide) (by norm_num)]
    norm_num
  have h4 : calculate_keyword_score prompt generalProfile = 0 := by
    rw [kwEval prompt generalProfile 0 36
      (h ("general", generalProfile) (by simp [agent_profiles])) (by decide) (by norm_num)]
    norm_num
  have hscores : agentScores envOffline defaultContext prompt =
      [("math", ⟨0, 0, 0, 0⟩), ("research", ⟨0, 0, 0, 0⟩),
       ("ocr", ⟨0, 0, 0, 0⟩), ("general", ⟨3/100, 0, 0, 1/10⟩)] := by
    rw [agentScores_offline, h1, h2, h3, h4]
    norm_num
  rw [routeOffline, route, hscores]
  norm_num [pyMaxByScore, pickStep]

/-- C4 witness: the keyword-free prompt `"qqq"` is routed to
`"general"` in the degraded configuration. -/
theorem c4_offline_general_when_no_keywords_witness :
    (routeOffline "qqq").agent_type = "general" ∧
    (routeOffline "qqq").confidence = 3/100 :=
  c4_offline_general_when_no_keywords "qqq" (by decide)

/-- C8 counterexample: for the empty request text the router performs no
validation and signals no error: it runs its ordinary scoring (in the
degraded configuration the decision is `"general"` with confidence
`0.03` and the generic reasoning string) and returns a normal
`RoutingDecision`. -/
theorem c8_counterexample :
    (routeOffline "").agent_type = "general" ∧
    (routeOffline "").confidence = 3/100 ∧
    (routeOffline "").reasoning = "Phân tích tổng hợp" := by
  have h1 : calculate_keyword_score "" mathProfile = 0 := by
    rw [kwEval _ _ 0 25 (by decide) (by decide) (by norm_num)]; norm_num
  have h2 : calculate_keyword_score "" researchProfile = 0 := by
    rw [kwEval _ _ 0 23 (by decide) (by decide) (by norm_num)]; norm_num
  have h3 : calculate_keyword_score "" ocrProfile = 0 := by
    rw [kwEval _ _ 0 21 (by decide) (by decide) (by norm_num)]; norm_num
  have h4 : calculate_keyword_score "" generalProfile = 0 := by
    rw [kwEval _ _ 0 36 (by decide) (by decide) (by norm_num)]; norm_num
  have hscores : agentScores envOffline defaultContext "" =
      [("math", ⟨0, 0, 0, 0⟩), ("research", ⟨0, 0, 0, 0⟩),
       ("ocr", ⟨0, 0, 0, 0⟩), ("general", ⟨3/100, 0, 0, 1/10⟩)] := by
    rw [agentScores_offline, h1, h2, h3, h4]
    norm_num
  rw [routeOffline, route, hscores]
  refine ⟨?_, ?_, ?_⟩
  · norm_num [pyMaxByScore, pickStep]
  · norm_num [pyMaxByScore, pickStep]
  · norm_num [pyMaxByScore, pickStep, buildReasoning]

/-- C8 (amended): empty request text is not rejected before any work is
done — `route()` carries out its full per-candidate scoring for the
empty string exactly as for any other prompt (all four registered
candidates are scored, in registry order) and returns one of them. -/
theorem c8_empty_prompt_not_validated (env : EmbedEnv) (ctx : ContextInfo) :
    ((route env ctx "").scores).map Prod.fst =
      ["math", "research", "ocr", "general"] ∧
    (route env ctx "").agent_type ∈
      (["math", "research", "ocr", "general"] : List String) := by
  constructor
  · have hsc : (route env ctx "").scores = agentScores env ctx "" := by
      simp [route]
    rw [hsc, agentScores_keys]
  · obtain ⟨e, hmem, htype, _⟩ := route_best_mem env ctx ""
    rw [htype, ← agentScores_keys env ctx ""]
    exact List.mem_map_of_mem Prod.fst hmem

/-- C3: with capacity `N`, after any `N + 1` `add_message` calls from
empty the stored count is exactly `N`, the stored sequence is the last
`N` added messages in insertion order (so the first-added message is
gone — in particular it is absent whenever the calls are pairwise
distinct), and the count never exceeds the capacity after any sequence
of operations that respects it. -/
theorem c3_sliding_window_capacity (N : Nat) (calls : List Message)
    (h : calls.length = N + 1) :
    (addSeq ⟨N, []⟩ calls).messages = calls.drop 1 ∧
    (addSeq ⟨N, []⟩ calls).messages.length = N ∧
    (calls.Nodup → ∀ m, calls.head? = some m →
      m ∉ (addSeq ⟨N, []⟩ calls).messages) ∧
    (∀ (mem : ShortTermMemory) (ops : List Message),
      mem.messages.length ≤ mem.maxSize →
      (addSeq mem ops).messages.length ≤ mem.maxSize) := by
  have hdrop : (addSeq ⟨N, []⟩ calls).messages = calls.drop 1 := by
    rw [addSeq_messages, h]
    simp
  refine ⟨hdrop, ?_, ?_, ?_⟩
  · rw [hdrop, List.length_drop, h]
    omega
  · intro hnodup m hm hmem
    cases calls with
    | nil => simp at hm
    | cons c t =>
        simp only [List.head?_cons, Option.some.injEq] at hm
        subst hm
        rw [hdrop] at hmem
        simp only [List.drop_succ_cons, List.drop_zero] at hmem
        exact (List.nodup_cons.mp hnodup).1 hmem
  · intro mem ops hinv
    exact addSeq_length_le ops mem hinv

/-- C3 witness: capacity 2, three distinct `add_message` calls. -/
theorem c3_sliding_window_capacity_witness :
    (addSeq ⟨2, []⟩ [⟨"user", "a", 0, []⟩, ⟨"assistant", "b", 0, []⟩,
        ⟨"user", "c", 0, []⟩]).messages =
      ([⟨"user", "a", 0, []⟩, ⟨"assistant", "b", 0, []⟩,
        ⟨"user", "c", 0, []⟩] : List Message).drop 1 ∧
    (addSeq ⟨2, []⟩ [⟨"user", "a", 0, []⟩, ⟨"assistant", "b", 0, []⟩,
        ⟨"user", "c", 0, []⟩]).messages.length = 2 ∧
    (([⟨"user", "a", 0, []⟩, ⟨"assistant", "b", 0, []⟩,
        ⟨"user", "c", 0, []⟩] : List Message).Nodup →
      ∀ m, ([⟨"user", "a", 0, []⟩, ⟨"assistant", "b", 0, []⟩,
        ⟨"user", "c", 0, []⟩] : List Message).head? = some m →
      m ∉ (addSeq ⟨2, []⟩ [⟨"user", "a", 0, []⟩, ⟨"assistant", "b", 0, []⟩,
        ⟨"user", "c", 0, []⟩]).messages) ∧
    (∀ (mem : ShortTermMemory) (ops : List Message),
      mem.messages.length ≤ mem.maxSize →
      (addSeq mem ops).messages.length ≤ mem.maxSize) :=
  c3_sliding_window_capacity 2
    [⟨"user", "a", 0, []⟩, ⟨"assistant", "b", 0, []⟩, ⟨"user", "c", 0, []⟩]
    (by simp)

/-- C5: `retrieve_memories` never returns a record whose
`similarity_score` is below the similarity threshold it passed to the
vector store's search: the threshold is a minimum-inclusive cutoff
applied before results are returned. -/
theorem c5_threshold_is_lower_bound (store : List StoredPoint)
    (sim : StoredPoint → ℚ) (t : ℚ) (maxMem : Nat) (now : ℚ)
    (mt : Option String) (mr : Option Nat) (mi : Option ℚ)
    (r : MemoryResult)
    (hr : r ∈ (retrieve_memories store sim t maxMem now mt mr mi).1) :
    t ≤ r.similarity_score := by
  simp only [retrieve_memories] at hr
  have hr2 := applyMaxResults_subset _ _ hr
  obtain ⟨hit, hhit, heq⟩ := mem_collectResults mt mi now _ r hr2
  rw [heq]
  exact mem_search_sim store sim _ t hit hhit

/-- C5 witness: a one-record store whose record scores `4/5` against the
query is returned by `retrieve_memories` with threshold `3/10`, and the
theorem bounds its reported similarity. -/
theorem c5_threshold_is_lower_bound_witness :
    (⟨"m1", "hello", "fact", 9/10, 1, 1, 1, "[]", "", "", 4/5⟩ : MemoryResult) ∈
      (retrieve_memories [⟨"m1", "hello", "fact", 9/10, 1, 1, 0, "[]", "", ""⟩]
        (fun _ => 4/5) (3/10) 10 1 none none none).1 ∧
    (3 : ℚ)/10 ≤
      (⟨"m1", "hello", "fact", 9/10, 1, 1, 1, "[]", "", "", 4/5⟩ :
        MemoryResult).similarity_score := by
  have hmem : (⟨"m1", "hello", "fact", 9/10, 1, 1, 1, "[]", "", "", 4/5⟩ :
      MemoryResult) ∈
      (retrieve_memories [⟨"m1", "hello", "fact", 9/10, 1, 1, 0, "[]", "", ""⟩]
        (fun _ => 4/5) (3/10) 10 1 none none none).1 := by
    have hq : ((3 : ℚ)/10 ≤ (4 : ℚ)/5) = True := by norm_num
    simp [retrieve_memories, search_memories, collectResults, applyMaxResults,
      List.filter, hq]
  exact ⟨hmem,
    c5_threshold_is_lower_bound _ _ _ _ _ _ _ _ _ hmem⟩

/-- C2: the `access_count`/`last_accessed` bump in `retrieve_memories`
is applied only to the result dictionaries it returns and is never
written back to the vector store: after a retrieval that returns the
sole stored record with `access_count = 1`, the stored record still has
`access_count = 0`, a second retrieval again reports `1` (not `2`), and
`get_memory_by_id` reads the un-bumped record without modifying
anything. -/
theorem c2_access_bump_not_persisted :
    (retrieve_memories [⟨"m1", "x", "fact", 9/10, 1, 1, 0, "[]", "", ""⟩]
        (fun _ => 4/5) (3/10) 10 42 none none none).2 =
      [⟨"m1", "x", "fact", 9/10, 1, 1, 0, "[]", "", ""⟩] ∧
    (retrieve_memories [⟨"m1", "x", "fact", 9/10, 1, 1, 0, "[]", "", ""⟩]
        (fun _ => 4/5) (3/10) 10 42 none none none).1.map
        (fun r => (r.access_count, r.last_accessed)) = [(1, 42)] ∧
    (retrieve_memories
        (retrieve_memories [⟨"m1", "x", "fact", 9/10, 1, 1, 0, "[]", "", ""⟩]
          (fun _ => 4/5) (3/10) 10 42 none none none).2
        (fun _ => 4/5) (3/10) 10 43 none none none).1.map
        (fun r => r.access_count) = [1] ∧
    get_memory_by_id
        (retrieve_memories [⟨"m1", "x", "fact", 9/10, 1, 1, 0, "[]", "", ""⟩]
          (fun _ => 4/5) (3/10) 10 42 none none none).2 "m1" =
      (some ⟨"m1", "x", "fact", 9/10, 1, 1, 0, "[]", "", ""⟩,
       [⟨"m1", "x", "fact", 9/10, 1, 1, 0, "[]", "", ""⟩]) := by
  have hq : ((3 : ℚ)/10 ≤ (4 : ℚ)/5) = True := by norm_num
  refine ⟨?_, ?_, ?_, ?_⟩
  · simp [retrieve_memories]
  · simp [retrieve_memories, search_memories, collectResults, applyMaxResults,
      List.filter, hq]
  · simp [retrieve_memories, search_memories, collectResults, applyMaxResults,
      List.filter, hq]
  · simp [retrieve_memories, get_memory_by_id, List.find?]

end MAS
